import Mathlib

/-!
Shallow embedding of the dispatch / delivery pipeline of
`src/services/WhatsApp.ts` (class `WhatsApp`) and of
`src/services/Database/Users.ts` (class `UserRepository`).

Handlers are embedded as pure functions producing a list of `Effect`s
(the externally observable calls: replies, database writes, queue
submissions, file removals, telemetry).  Awaited external calls that can
fail are driven by explicit boolean oracles in an environment record;
a failing awaited call aborts the handler body with outcome `thrown`,
which the surrounding `try`/`catch` of the source turns into a logged,
non-propagating trace.  Calls the source does not `await`
(fire-and-forget promises) cannot abort the body, mirroring the code.
-/

namespace WhatsAppWizzard

/-! ## JavaScript `String.prototype.split` on a single-character separator

`WhatsApp.ts` line 165: `const countryCode = userNumber.split(" ")[0];`.
JS `split` with separator `" "` cuts at every space, producing empty
pieces for adjacent separators, and `"".split(" ")` is `[""]`. -/

def jsSplit (sep : Char) : List Char → List (List Char)
  | [] => [[]]
  | c :: cs =>
    let r := jsSplit sep cs
    if c = sep then [] :: r
    else (c :: r.headD []) :: r.tail

/-- `userNumber.split(" ")[0]` from `WhatsApp.ts` line 165. -/
def countryCode (s : String) : String :=
  String.mk ((jsSplit ' ' s.data).headD [])

theorem jsSplit_headD (sep : Char) (s : List Char) :
    (jsSplit sep s).headD [] = s.takeWhile (fun c => !(c == sep)) := by
  induction s with
  | nil => rfl
  | cons c cs ih =>
    by_cases h : c = sep
    · simp [jsSplit, h, List.takeWhile_cons]
    · simp only [jsSplit, List.takeWhile_cons, List.headD_cons]
      simp only [List.headD_eq_head?_getD] at ih
      simp [h, ih]

theorem takeWhile_no_sep (sep : Char) (s : List Char) (h : sep ∉ s) :
    s.takeWhile (fun c => !(c == sep)) = s := by
  induction s with
  | nil => rfl
  | cons c cs ih =>
    simp only [List.mem_cons, not_or] at h
    simp [List.takeWhile_cons, Ne.symm h.1, ih h.2]

theorem countryCode_takeWhile (s : String) :
    countryCode s = String.mk (s.data.takeWhile (fun c => !(c == ' '))) := by
  unfold countryCode
  rw [jsSplit_headD]

theorem countryCode_no_space (s : String) (h : ' ' ∉ s.data) :
    countryCode s = s := by
  rw [countryCode_takeWhile, takeWhile_no_sep _ _ h]

/-! ## Unread reconciliation (`getUnreadChats`, `WhatsApp.ts` lines 335-367)

A `Chat` models one element of `await this.client.getChats()`.  The
`history` field is the list returned by
`chat.fetchMessages({ limit: Infinity })`, which the messaging client
delivers sorted from earliest to latest (chronological order); messages
are modelled by opaque numeric identifiers. -/

structure Chat where
  id : String
  unreadCount : Nat
  history : List Nat
  deriving DecidableEq, Repr

/-- Lines 348-350:
`(await chat.fetchMessages({ limit: Infinity })).reverse().slice(0, chat.unreadCount)`. -/
def unreadMessagesOf (c : Chat) : List Nat :=
  (c.history.reverse).take c.unreadCount

/-- Modelled from the spec: "take exactly the last N messages where N is the
conversation's reported unread count — this produces the unread subset in
chronological order".  With `history` chronological (earliest first), the
unread subset in chronological order is the final `N`-element segment. -/
def chronologicalUnread (c : Chat) : List Nat :=
  c.history.drop (c.history.length - c.unreadCount)

/-! ## Inbound message handler (`setupMessageHandler`, `WhatsApp.ts` lines 153-247) -/

structure UserPayload where
  name : String
  phone : String
  platform : String
  country : String
  deriving DecidableEq, Repr

/-- One element of `message.links`; `link` is its `.link` URL field. -/
structure Link where
  link : String
  deriving DecidableEq, Repr

/-- The fields of the inbound `message` object that the handler reads. -/
structure Msg where
  id : String
  body : String
  timestamp : Nat
  hasMedia : Bool
  links : List Link
  deviceType : String
  deriving DecidableEq, Repr

/-- Results of the awaited external calls made by the message handler, plus
oracles saying whether each awaited call succeeds.  A `false` oracle means
that `await` throws, jumping to the handler's `catch` block. -/
structure MsgEnv where
  getChatOk : Bool
  isGroup : Bool
  isReadOnly : Bool
  getContactOk : Bool
  getNumberOk : Bool
  formattedNumber : String
  pushname : String
  upsertOk : Bool
  userId : String
  downloadMediaOk : Bool
  mimetype : String
  mediaData : String
  rateLimiterOk : Bool
  rateLimited : Bool
  createDownloadOk : Bool
  downloadId : String
  deriving DecidableEq, Repr

inductive DownloadStatus where
  | UNKNOWN | PENDING | SENT | FAILED
  deriving DecidableEq, Repr

/-- Payload of `addJobToDownloaderQueue` (`WhatsApp.ts` lines 233-240). -/
structure JobPayload where
  url : String
  downloadId : String
  message : Msg
  deriving DecidableEq, Repr

/-- Externally observable calls issued by the embedded handlers. -/
inductive Effect where
  | upsertUser (p : UserPayload)
  | identifyUser (uid : String) (p : UserPayload)
  | trackEvent (name : String) (subject : String)
  | stickerCreate (uid : String) (ts : Nat) (body : String)
  | replySticker (mid : String) (mimetype : String) (data : String)
  | replyText (mid : String) (text : String)
  | createDownload (rowId : String) (url : String) (status : DownloadStatus)
      (ownerId : String) (ts : Nat)
  | addJob (key : String) (payload : JobPayload)
  | replyMedia (mid : String) (path : String)
  | removeFile (path : String)
  | updateStatus (rowId : String) (status : DownloadStatus)
  | createError (msg : String) (downloadRowId : String)
  | logError
  deriving DecidableEq, Repr

/-- Whether the `try` body ran to completion or threw into the `catch`. -/
inductive Outcome where
  | ok | thrown
  deriving DecidableEq, Repr

def rateLimitText : String :=
  "To save our resources, Please wait a moment before sending another request. R409"

/-- Lines 167-172: the payload handed to `createOrUpdateUser`.
`contactInfo.pushname || userNumber`: a JS empty/absent pushname is falsy,
so the formatted number is used instead. -/
def userPayloadOf (env : MsgEnv) (m : Msg) : UserPayload :=
  { name := if env.pushname = "" then env.formattedNumber else env.pushname
    phone := env.formattedNumber
    platform := m.deviceType
    country := countryCode env.formattedNumber }

/-- Lines 187-202: the `if (hasMedia)` sticker branch.  `downloadMedia` is
awaited (can throw); `stickers.create` and the sticker `reply` are not. -/
def stickerBranch (env : MsgEnv) (m : Msg) (uid : String) : List Effect × Outcome :=
  if m.hasMedia then
    if env.downloadMediaOk then
      if env.mimetype = "image/jpeg" ∨ env.mimetype = "image/png" then
        ([.stickerCreate uid m.timestamp m.body,
          .replySticker m.id env.mimetype env.mediaData,
          .trackEvent "sticker_created" uid], .ok)
      else ([], .ok)
    else ([], .thrown)
  else ([], .ok)

/-- Lines 204-242: the `if (links.length > 0)` branch.  `isRatedLimited` and
`downloadRepo.create` are awaited (can throw); the rate-limit `reply` and
`addJobToDownloaderQueue` are not.  The JS guard `if (urls)` always passes
because an array is truthy. -/
def linkBranch (env : MsgEnv) (m : Msg) (uid userNumber : String) :
    List Effect × Outcome :=
  if 0 < m.links.length then
    if env.rateLimiterOk then
      if env.rateLimited then
        ([.trackEvent "rate_limited" uid, .replyText m.id rateLimitText], .ok)
      else
        let urls := m.links.map (fun l => l.link)
        let url := urls.headD ""
        if env.createDownloadOk then
          ([.createDownload env.downloadId url .UNKNOWN uid m.timestamp,
            .trackEvent "download_requested" uid,
            .addJob (toString m.timestamp ++ "-" ++ userNumber)
              { url := url, downloadId := env.downloadId, message := m }], .ok)
        else ([], .thrown)
    else ([], .thrown)
  else ([], .ok)

/-- Lines 156-242: the body of the `try` block of the message handler, as the
list of effects it issues together with whether it threw. -/
def messageBody (env : MsgEnv) (m : Msg) : List Effect × Outcome :=
  if env.getChatOk then
    if env.isGroup ∨ env.isReadOnly then ([], .ok)
    else
      if env.getContactOk then
        if env.getNumberOk then
          let p := userPayloadOf env m
          if env.upsertOk then
            let uid := env.userId
            let pre : List Effect :=
              [.upsertUser p, .identifyUser uid p, .trackEvent "message_received" uid]
            match stickerBranch env m uid with
            | (s, .thrown) => (pre ++ s, .thrown)
            | (s, .ok) =>
              let lb := linkBranch env m uid env.formattedNumber
              (pre ++ s ++ lb.1, lb.2)
          else ([], .thrown)
        else ([], .thrown)
      else ([], .thrown)
  else ([], .thrown)

/-- Lines 155-246: the whole `client.on("message", ...)` callback; the
`catch` turns any throw into a `console.log` and completes normally. -/
def messageHandler (env : MsgEnv) (m : Msg) : List Effect :=
  match messageBody env m with
  | (t, .ok) => t
  | (t, .thrown) => t ++ [.logError]

/-- Sequential processing of a stream of inbound messages, each with the
environment its awaited calls observe. -/
def processAll : List (MsgEnv × Msg) → List Effect
  | [] => []
  | p :: rest => messageHandler p.1 p.2 ++ processAll rest

/-- All awaited calls of the inbound path succeed. -/
def MsgEnv.allOk (env : MsgEnv) : Prop :=
  env.getChatOk = true ∧ env.getContactOk = true ∧ env.getNumberOk = true ∧
  env.upsertOk = true ∧ env.downloadMediaOk = true ∧ env.rateLimiterOk = true ∧
  env.createDownloadOk = true

instance (env : MsgEnv) : Decidable env.allOk := by
  unfold MsgEnv.allOk; infer_instance

/-! ## Effect classifiers, for counting observable calls in a trace -/

def Effect.isUpsertUser : Effect → Bool
  | .upsertUser _ => true
  | _ => false

def Effect.isCreateDownload : Effect → Bool
  | .createDownload _ _ _ _ _ => true
  | _ => false

def Effect.isAddJob : Effect → Bool
  | .addJob _ _ => true
  | _ => false

def Effect.isReplyText : Effect → Bool
  | .replyText _ _ => true
  | _ => false

def Effect.isStickerCreate : Effect → Bool
  | .stickerCreate _ _ _ => true
  | _ => false

def Effect.isReplySticker : Effect → Bool
  | .replySticker _ _ _ => true
  | _ => false

def Effect.isStickerTrack : Effect → Bool
  | .trackEvent n _ => n == "sticker_created"
  | _ => false

def Effect.isReplyMedia : Effect → Bool
  | .replyMedia _ _ => true
  | _ => false

def Effect.isRemoveFile : Effect → Bool
  | .removeFile _ => true
  | _ => false

def Effect.isUpdateStatus : Effect → Bool
  | .updateStatus _ _ => true
  | _ => false

def Effect.isCreateError : Effect → Bool
  | .createError _ _ => true
  | _ => false

/-! ## Claim C1 -/

/-- C1: the claim states the produced per-conversation list is the unread
subset in chronological order.  On the concrete chat with chronological
history `[10, 20]` and unread count 2, the code's
`reverse().slice(0, unreadCount)` yields `[20, 10]`, not the chronological
subset `[10, 20]`: the claim as stated is false. -/
theorem C1_counterexample :
    unreadMessagesOf ⟨"chat", 2, [10, 20]⟩ ≠
      chronologicalUnread ⟨"chat", 2, [10, 20]⟩ := by
  decide

/-- C1 (amended): for a conversation whose reported unread count N is at most
the history length, one reconciliation pass produces its index entry by
reversing the full chronological history and taking exactly N messages,
which is the unread subset in reverse chronological order (most recent
first). -/
theorem C1_unread_slice_reverse_chronological (c : Chat)
    (h : c.unreadCount ≤ c.history.length) :
    unreadMessagesOf c = (chronologicalUnread c).reverse ∧
    (unreadMessagesOf c).length = c.unreadCount := by
  constructor
  · have h1 : chronologicalUnread c = (unreadMessagesOf c).reverse :=
      List.rtake_eq_reverse_take_reverse c.history c.unreadCount
    rw [h1, List.reverse_reverse]
  · simp only [unreadMessagesOf, List.length_take, List.length_reverse]
    omega

theorem C1_unread_slice_witness :
    unreadMessagesOf ⟨"chat", 1, [10, 20]⟩ =
      (chronologicalUnread ⟨"chat", 1, [10, 20]⟩).reverse ∧
    (unreadMessagesOf ⟨"chat", 1, [10, 20]⟩).length = 1 :=
  C1_unread_slice_reverse_chronological ⟨"chat", 1, [10, 20]⟩ (by decide)

/-! ## Claim C3 -/

/-- C3: for an inbound message from a non-group, non-read-only conversation
with exactly one link and a non-rate-limited sender (all awaited calls
succeeding), the handler issues exactly one download-record creation, with
status UNKNOWN and ownerId the resolved user id, and exactly one queue-job
submission keyed `{timestamp}-{formatted number}` whose payload carries the
link's URL, the created record's id, and the originating message. -/
theorem C3_single_link_dispatch (env : MsgEnv) (m : Msg) (l : Link)
    (hok : env.allOk) (hg : env.isGroup = false) (hro : env.isReadOnly = false)
    (hl : m.links = [l]) (hrl : env.rateLimited = false) :
    (messageHandler env m).filter Effect.isCreateDownload =
      [.createDownload env.downloadId l.link .UNKNOWN env.userId m.timestamp] ∧
    (messageHandler env m).filter Effect.isAddJob =
      [.addJob (toString m.timestamp ++ "-" ++ env.formattedNumber)
        { url := l.link, downloadId := env.downloadId, message := m }] := by
  obtain ⟨h1, h2, h3, h4, h5, h6, h7⟩ := hok
  cases hm : m.hasMedia with
  | false =>
    simp [messageHandler, messageBody, stickerBranch, linkBranch,
      h1, h2, h3, h4, h5, h6, h7, hg, hro, hl, hrl, hm,
      Effect.isCreateDownload, Effect.isAddJob]
  | true =>
    by_cases hmt : env.mimetype = "image/jpeg" ∨ env.mimetype = "image/png" <;>
      simp [messageHandler, messageBody, stickerBranch, linkBranch,
        h1, h2, h3, h4, h5, h6, h7, hg, hro, hl, hrl, hm, hmt,
        Effect.isCreateDownload, Effect.isAddJob]

theorem C3_single_link_dispatch_witness :
    (messageHandler
        ⟨true, false, false, true, true, "+20 100", "nasr", true, "u1",
          true, "video/mp4", "", true, false, true, "d1"⟩
        ⟨"m1", "hi", 5, false, [⟨"https://x.test/v"⟩], "android"⟩).filter
        Effect.isCreateDownload =
      [.createDownload "d1" "https://x.test/v" .UNKNOWN "u1" 5] ∧
    (messageHandler
        ⟨true, false, false, true, true, "+20 100", "nasr", true, "u1",
          true, "video/mp4", "", true, false, true, "d1"⟩
        ⟨"m1", "hi", 5, false, [⟨"https://x.test/v"⟩], "android"⟩).filter
        Effect.isAddJob =
      [.addJob ("5" ++ "-" ++ "+20 100")
        { url := "https://x.test/v", downloadId := "d1",
          message := ⟨"m1", "hi", 5, false, [⟨"https://x.test/v"⟩], "android"⟩ }] :=
  C3_single_link_dispatch _ _ _ (by decide) rfl rfl rfl rfl

/-! ## Claim C4 -/

/-- C4: for an inbound message with links whose sender is reported
rate-limited (all awaited calls succeeding, non-group, non-read-only), the
handler replies exactly once with the fixed rate-limit notice and creates
no download record and no queue job. -/
theorem C4_rate_limited_rejection (env : MsgEnv) (m : Msg)
    (hok : env.allOk) (hg : env.isGroup = false) (hro : env.isReadOnly = false)
    (hl : m.links ≠ []) (hrl : env.rateLimited = true) :
    (messageHandler env m).filter Effect.isReplyText =
      [.replyText m.id rateLimitText] ∧
    (messageHandler env m).filter Effect.isCreateDownload = [] ∧
    (messageHandler env m).filter Effect.isAddJob = [] := by
  obtain ⟨h1, h2, h3, h4, h5, h6, h7⟩ := hok
  have hl0 : 0 < m.links.length := List.length_pos.mpr hl
  cases hm : m.hasMedia with
  | false =>
    simp [messageHandler, messageBody, stickerBranch, linkBranch,
      h1, h2, h3, h4, h5, h6, h7, hg, hro, hl0, hrl, hm,
      Effect.isReplyText, Effect.isCreateDownload, Effect.isAddJob]
  | true =>
    by_cases hmt : env.mimetype = "image/jpeg" ∨ env.mimetype = "image/png" <;>
      simp [messageHandler, messageBody, stickerBranch, linkBranch,
        h1, h2, h3, h4, h5, h6, h7, hg, hro, hl0, hrl, hm, hmt,
        Effect.isReplyText, Effect.isCreateDownload, Effect.isAddJob]

theorem C4_rate_limited_rejection_witness :
    (messageHandler
        ⟨true, false, false, true, true, "+20 100", "nasr", true, "u1",
          true, "image/png", "img", true, true, true, "d1"⟩
        ⟨"m1", "hi", 5, false, [⟨"https://x.test/v"⟩], "android"⟩).filter
        Effect.isReplyText = [.replyText "m1" rateLimitText] ∧
    (messageHandler
        ⟨true, false, false, true, true, "+20 100", "nasr", true, "u1",
          true, "image/png", "img", true, true, true, "d1"⟩
        ⟨"m1", "hi", 5, false, [⟨"https://x.test/v"⟩], "android"⟩).filter
        Effect.isCreateDownload = [] ∧
    (messageHandler
        ⟨true, false, false, true, true, "+20 100", "nasr", true, "u1",
          true, "image/png", "img", true, true, true, "d1"⟩
        ⟨"m1", "hi", 5, false, [⟨"https://x.test/v"⟩], "android"⟩).filter
        Effect.isAddJob = [] :=
  C4_rate_limited_rejection _ _ (by decide) rfl rfl (by decide) rfl

/-! ## Claim C9 -/

/-- C9: with media present and all awaited calls succeeding, the sticker
record, the sticker reply, and the `sticker_created` telemetry event are
each issued exactly once when the downloaded mimetype is `image/jpeg` or
`image/png`, and not at all for any other mimetype. -/
theorem C9_sticker_iff_supported_image (env : MsgEnv) (m : Msg)
    (hok : env.allOk) (hg : env.isGroup = false) (hro : env.isReadOnly = false)
    (hm : m.hasMedia = true) :
    ((env.mimetype = "image/jpeg" ∨ env.mimetype = "image/png") →
      (messageHandler env m).filter Effect.isStickerCreate =
        [.stickerCreate env.userId m.timestamp m.body] ∧
      (messageHandler env m).filter Effect.isReplySticker =
        [.replySticker m.id env.mimetype env.mediaData] ∧
      (messageHandler env m).filter Effect.isStickerTrack =
        [.trackEvent "sticker_created" env.userId]) ∧
    (¬(env.mimetype = "image/jpeg" ∨ env.mimetype = "image/png") →
      (messageHandler env m).filter Effect.isStickerCreate = [] ∧
      (messageHandler env m).filter Effect.isReplySticker = [] ∧
      (messageHandler env m).filter Effect.isStickerTrack = []) := by
  obtain ⟨h1, h2, h3, h4, h5, h6, h7⟩ := hok
  constructor <;> intro hmt <;>
    by_cases hl : 0 < m.links.length <;>
    by_cases hrl : env.rateLimited = true <;>
      simp [messageHandler, messageBody, stickerBranch, linkBranch,
        h1, h2, h3, h4, h5, h6, h7, hg, hro, hm, hmt, hl, hrl,
        Effect.isStickerCreate, Effect.isReplySticker, Effect.isStickerTrack]

theorem C9_sticker_witness :
    ((("image/png" : String) = "image/jpeg" ∨ ("image/png" : String) = "image/png") →
      (messageHandler
          ⟨true, false, false, true, true, "+20 100", "nasr", true, "u1",
            true, "image/png", "img", true, false, true, "d1"⟩
          ⟨"m1", "cap", 5, true, [], "android"⟩).filter Effect.isStickerCreate =
        [.stickerCreate "u1" 5 "cap"] ∧
      (messageHandler
          ⟨true, false, false, true, true, "+20 100", "nasr", true, "u1",
            true, "image/png", "img", true, false, true, "d1"⟩
          ⟨"m1", "cap", 5, true, [], "android"⟩).filter Effect.isReplySticker =
        [.replySticker "m1" "image/png" "img"] ∧
      (messageHandler
          ⟨true, false, false, true, true, "+20 100", "nasr", true, "u1",
            true, "image/png", "img", true, false, true, "d1"⟩
          ⟨"m1", "cap", 5, true, [], "android"⟩).filter Effect.isStickerTrack =
        [.trackEvent "sticker_created" "u1"]) ∧
    (¬(("image/png" : String) = "image/jpeg" ∨ ("image/png" : String) = "image/png") →
      (messageHandler
          ⟨true, false, false, true, true, "+20 100", "nasr", true, "u1",
            true, "image/png", "img", true, false, true, "d1"⟩
          ⟨"m1", "cap", 5, true, [], "android"⟩).filter Effect.isStickerCreate = [] ∧
      (messageHandler
          ⟨true, false, false, true, true, "+20 100", "nasr", true, "u1",
            true, "image/png", "img", true, false, true, "d1"⟩
          ⟨"m1", "cap", 5, true, [], "android"⟩).filter Effect.isReplySticker = [] ∧
      (messageHandler
          ⟨true, false, false, true, true, "+20 100", "nasr", true, "u1",
            true, "image/png", "img", true, false, true, "d1"⟩
          ⟨"m1", "cap", 5, true, [], "android"⟩).filter Effect.isStickerTrack = []) :=
  C9_sticker_iff_supported_image
    ⟨true, false, false, true, true, "+20 100", "nasr", true, "u1",
      true, "image/png", "img", true, false, true, "d1"⟩
    ⟨"m1", "cap", 5, true, [], "android"⟩ (by decide) rfl rfl rfl

/-! ## Claim C10 -/

theorem stickerBranch_filter_upsert (env : MsgEnv) (m : Msg) (uid : String) :
    (stickerBranch env m uid).1.filter Effect.isUpsertUser = [] := by
  unfold stickerBranch
  split_ifs <;> simp [Effect.isUpsertUser]

theorem linkBranch_filter_upsert (env : MsgEnv) (m : Msg) (uid userNumber : String) :
    (linkBranch env m uid userNumber).1.filter Effect.isUpsertUser = [] := by
  unfold linkBranch
  split_ifs <;> simp [Effect.isUpsertUser]

/-- C10: whenever an inbound message reaches the user upsert, the stored
country field is the prefix of the sender's formatted phone number up to
(excluding) the first space, and equals the whole formatted number when it
contains no space. -/
theorem C10_country_is_number_head (env : MsgEnv) (m : Msg)
    (h1 : env.getChatOk = true) (h2 : env.getContactOk = true)
    (h3 : env.getNumberOk = true) (h4 : env.upsertOk = true)
    (hg : env.isGroup = false) (hro : env.isReadOnly = false) :
    (messageHandler env m).filter Effect.isUpsertUser =
      [.upsertUser (userPayloadOf env m)] ∧
    (userPayloadOf env m).country =
      String.mk (env.formattedNumber.data.takeWhile (fun c => !(c == ' '))) ∧
    (' ' ∉ env.formattedNumber.data →
      (userPayloadOf env m).country = env.formattedNumber) := by
  refine ⟨?_, countryCode_takeWhile env.formattedNumber,
    fun hsp => countryCode_no_space env.formattedNumber hsp⟩
  rcases hsb : stickerBranch env m env.userId with ⟨s, o⟩
  have hs := stickerBranch_filter_upsert env m env.userId
  rw [hsb] at hs
  cases o with
  | thrown =>
    simp [messageHandler, messageBody, h1, h2, h3, h4, hg, hro, hsb,
      List.filter_append, hs, Effect.isUpsertUser]
  | ok =>
    have hlkb := linkBranch_filter_upsert env m env.userId env.formattedNumber
    cases hlo : (linkBranch env m env.userId env.formattedNumber).2 <;>
      simp [messageHandler, messageBody, h1, h2, h3, h4, hg, hro, hsb, hlo,
        List.filter_append, hs, hlkb, Effect.isUpsertUser]

theorem C10_country_witness :
    (messageHandler
        ⟨true, false, false, true, true, "+20 100 123", "nasr", true, "u1",
          true, "", "", true, false, true, "d1"⟩
        ⟨"m1", "", 5, false, [], "android"⟩).filter Effect.isUpsertUser =
      [.upsertUser (userPayloadOf
        ⟨true, false, false, true, true, "+20 100 123", "nasr", true, "u1",
          true, "", "", true, false, true, "d1"⟩
        ⟨"m1", "", 5, false, [], "android"⟩)] ∧
    (userPayloadOf
        ⟨true, false, false, true, true, "+20 100 123", "nasr", true, "u1",
          true, "", "", true, false, true, "d1"⟩
        ⟨"m1", "", 5, false, [], "android"⟩).country =
      String.mk (("+20 100 123" : String).data.takeWhile (fun c => !(c == ' '))) ∧
    (' ' ∉ ("+20 100 123" : String).data →
      (userPayloadOf
          ⟨true, false, false, true, true, "+20 100 123", "nasr", true, "u1",
            true, "", "", true, false, true, "d1"⟩
          ⟨"m1", "", 5, false, [], "android"⟩).country = "+20 100 123") :=
  C10_country_is_number_head _ _ rfl rfl rfl rfl rfl rfl

/-! ## Claim C8 -/

/-- C8: a throw anywhere in the inbound-path body is caught by the handler,
which completes with the effects issued so far plus a log entry; and the
processing of a stream of inbound messages decomposes message by message,
so a failing message leaves earlier and later messages' processing
unchanged. -/
theorem C8_handler_isolation (env : MsgEnv) (m : Msg)
    (pre post : List (MsgEnv × Msg)) :
    ((messageBody env m).2 = .thrown →
      messageHandler env m = (messageBody env m).1 ++ [.logError]) ∧
    processAll (pre ++ (env, m) :: post) =
      processAll pre ++ messageHandler env m ++ processAll post := by
  constructor
  · intro h
    rcases hb : messageBody env m with ⟨t, o⟩
    rw [hb] at h
    cases o with
    | ok => exact absurd h (by simp)
    | thrown => simp [messageHandler, hb]
  · induction pre with
    | nil => simp [processAll]
    | cons p rest ih => simp [processAll, ih]

theorem C8_handler_isolation_witness :
    messageHandler
        ⟨false, false, false, true, true, "", "", true, "u1",
          true, "", "", true, false, true, "d1"⟩
        ⟨"m1", "", 0, false, [], "pc"⟩ =
      (messageBody
        ⟨false, false, false, true, true, "", "", true, "u1",
          true, "", "", true, false, true, "d1"⟩
        ⟨"m1", "", 0, false, [], "pc"⟩).1 ++ [Effect.logError] ∧
    processAll ([] ++
        (⟨false, false, false, true, true, "", "", true, "u1",
          true, "", "", true, false, true, "d1"⟩,
         ⟨"m1", "", 0, false, [], "pc"⟩) :: []) =
      processAll [] ++
        messageHandler
          ⟨false, false, false, true, true, "", "", true, "u1",
            true, "", "", true, false, true, "d1"⟩
          ⟨"m1", "", 0, false, [], "pc"⟩ ++
        processAll [] :=
  ⟨(C8_handler_isolation _ _ [] []).1 rfl, (C8_handler_isolation _ _ [] []).2⟩

/-! ## Queue completion handler (`onQueueMessage`, `WhatsApp.ts` lines 248-292) -/

/-- One element of `job.returnvalue.download`. -/
structure Artifact where
  path : String
  deriving DecidableEq, Repr

/-- The fields of a completed `DownloadJob` the handler reads:
`job.returnvalue.download`, `job.returnvalue.downloadId`,
`job.data.message.id._serialized`, and `job.data.message.from`. -/
structure CompletedJob where
  artifacts : List Artifact
  downloadId : String
  msgId : String
  msgFrom : String
  deriving DecidableEq, Repr

/-- Oracles for the awaited calls of the completion handler: whether
`getMessageById` and `FileService.removeFile` succeed on the i-th
artifact, and whether `updateStatusById` succeeds.  The per-artifact
`reply` is not awaited in the source (line 269), so it has no oracle:
a rejected reply promise cannot abort the loop. -/
structure CompletedEnv where
  getMessageOk : Nat → Bool
  removeOk : Nat → Bool
  updateOk : Bool

/-- Lines 256-278: the `for` loop over `download`.  Per iteration:
`MessageMedia.fromFilePath` (pure), `await getMessageById`, `reply`
(fire-and-forget), `await removeFile`, `trackEvent`. -/
def deliverLoop (env : CompletedEnv) (mid mfrom : String) :
    Nat → List Artifact → List Effect × Outcome
  | _, [] => ([], .ok)
  | i, a :: rest =>
    if env.getMessageOk i then
      if env.removeOk i then
        let step := [Effect.replyMedia mid a.path, Effect.removeFile a.path,
                     Effect.trackEvent "download_response" mfrom]
        let r := deliverLoop env mid mfrom (i + 1) rest
        (step ++ r.1, r.2)
      else ([Effect.replyMedia mid a.path], .thrown)
    else ([], .thrown)

/-- Lines 251-291: the `DownloadCompleted` callback; its `catch` logs and
records an `error_onQueueMessage` telemetry event. -/
def onDownloadCompleted (env : CompletedEnv) (job : CompletedJob) : List Effect :=
  match deliverLoop env job.msgId job.msgFrom 0 job.artifacts with
  | (t, .thrown) => t ++ [.logError, .trackEvent "error_onQueueMessage" ""]
  | (t, .ok) =>
    if env.updateOk then t ++ [.updateStatus job.downloadId .SENT]
    else t ++ [.logError, .trackEvent "error_onQueueMessage" ""]

/-! ## Queue failure handler (`WhatsApp.ts` lines 294-310) -/

def apologyText : String :=
  "Believe me, I tried my best to download this file, but I couldn't. 🫠😔 \n\nPlease try again later"

/-- The fields of a failed `DownloadJob` the handler reads:
`job.data.message.id._serialized` and `job.data.downloadId`. -/
structure FailedJobData where
  msgId : String
  downloadId : String
  deriving DecidableEq, Repr

/-- Oracles for the failure handler: whether the awaited `getMessageById`
succeeds, and whether the (not awaited, line 302) apology `reply` promise
rejects. -/
structure FailedEnv where
  getMessageOk : Bool
  replyRejects : Bool
  deriving DecidableEq, Repr

/-- Lines 294-310: the `DownloadFailed` callback.  `getMessageById` is
awaited, so its failure jumps to the empty `catch` and nothing is issued;
the apology `reply` is not awaited, so a rejected reply promise cannot
prevent `ErrorRepo.createError` from running. -/
def onDownloadFailed (env : FailedEnv) (job : FailedJobData) (error : String) :
    List Effect :=
  if env.getMessageOk then
    [.replyText job.msgId apologyText, .createError error job.downloadId]
  else []

/-! ## Claim C2 -/

/-- C2: on a queue failed event whose original message re-resolves, exactly
one apology reply is issued to the re-resolved message and exactly one
Error record is created, associating the failure string with the download
record id; and this holds whether or not the reply promise rejects, so the
Error record is created even if the reply itself throws. -/
theorem C2_failed_event_apology_and_error (env : FailedEnv)
    (job : FailedJobData) (error : String) (h : env.getMessageOk = true) :
    (onDownloadFailed env job error).filter Effect.isReplyText =
      [.replyText job.msgId apologyText] ∧
    (onDownloadFailed env job error).filter Effect.isCreateError =
      [.createError error job.downloadId] ∧
    onDownloadFailed env job error =
      onDownloadFailed { env with replyRejects := true } job error := by
  refine ⟨?_, ?_, ?_⟩ <;>
    simp [onDownloadFailed, h, Effect.isReplyText, Effect.isCreateError]

theorem C2_failed_event_witness :
    (onDownloadFailed ⟨true, true⟩ ⟨"m1", "d1"⟩ "Error: boom").filter
        Effect.isReplyText = [.replyText "m1" apologyText] ∧
    (onDownloadFailed ⟨true, true⟩ ⟨"m1", "d1"⟩ "Error: boom").filter
        Effect.isCreateError = [.createError "Error: boom" "d1"] ∧
    onDownloadFailed ⟨true, true⟩ ⟨"m1", "d1"⟩ "Error: boom" =
      onDownloadFailed ⟨true, true⟩ ⟨"m1", "d1"⟩ "Error: boom" :=
  C2_failed_event_apology_and_error ⟨true, true⟩ ⟨"m1", "d1"⟩ "Error: boom" rfl

/-! ## Claim C5 -/

theorem deliverLoop_all_ok (env : CompletedEnv) (mid mfrom : String)
    (hres : ∀ i, env.getMessageOk i = true) (hrem : ∀ i, env.removeOk i = true) :
    ∀ (as : List Artifact) (i : Nat),
      deliverLoop env mid mfrom i as =
        ((as.map (fun a => [Effect.replyMedia mid a.path, Effect.removeFile a.path,
            Effect.trackEvent "download_response" mfrom])).flatten, .ok) := by
  intro as
  induction as with
  | nil => intro i; rfl
  | cons a rest ih =>
    intro i
    simp [deliverLoop, hres i, hrem i, ih (i + 1)]

theorem countP_join_of_one {α : Type} (p : α → Bool) (f : Artifact → List α)
    (h : ∀ a, (f a).countP p = 1) (as : List Artifact) :
    ((as.map f).flatten).countP p = as.length := by
  induction as with
  | nil => rfl
  | cons a rest ih =>
    simp [List.countP_append, h a, ih]
    omega

theorem filter_join_of_none {α : Type} (p : α → Bool) (f : Artifact → List α)
    (h : ∀ a, (f a).filter p = []) (as : List Artifact) :
    ((as.map f).flatten).filter p = [] := by
  induction as with
  | nil => rfl
  | cons a rest ih => simp [List.filter_append, h a, ih]

/-- C5: on a queue completed event with k artifacts, when every awaited call
succeeds, the handler's trace is exactly the per-artifact delivery blocks
(reply to the message re-resolved by its stable id, then blob removal,
then telemetry) followed by a single SENT status update; in particular
exactly k replies and k removals are issued and the SENT update occurs
exactly once, after all deliveries. -/
theorem C5_completed_event_delivery (env : CompletedEnv) (job : CompletedJob)
    (hres : ∀ i, env.getMessageOk i = true)
    (hrem : ∀ i, env.removeOk i = true) (hupd : env.updateOk = true) :
    onDownloadCompleted env job =
      ((job.artifacts.map (fun a =>
          [Effect.replyMedia job.msgId a.path, Effect.removeFile a.path,
           Effect.trackEvent "download_response" job.msgFrom])).flatten) ++
        [.updateStatus job.downloadId .SENT] ∧
    (onDownloadCompleted env job).countP Effect.isReplyMedia =
      job.artifacts.length ∧
    (onDownloadCompleted env job).countP Effect.isRemoveFile =
      job.artifacts.length ∧
    (onDownloadCompleted env job).filter Effect.isUpdateStatus =
      [.updateStatus job.downloadId .SENT] := by
  have htr : onDownloadCompleted env job =
      ((job.artifacts.map (fun a =>
          [Effect.replyMedia job.msgId a.path, Effect.removeFile a.path,
           Effect.trackEvent "download_response" job.msgFrom])).flatten) ++
        [.updateStatus job.downloadId .SENT] := by
    simp [onDownloadCompleted,
      deliverLoop_all_ok env job.msgId job.msgFrom hres hrem job.artifacts 0, hupd]
  refine ⟨htr, ?_, ?_, ?_⟩ <;> rw [htr]
  · rw [List.countP_append,
      countP_join_of_one _ _ (fun a => by simp [Effect.isReplyMedia]) job.artifacts]
    simp [Effect.isReplyMedia]
  · rw [List.countP_append,
      countP_join_of_one _ _ (fun a => by simp [Effect.isRemoveFile]) job.artifacts]
    simp [Effect.isRemoveFile]
  · rw [List.filter_append,
      filter_join_of_none _ _ (fun a => by simp [Effect.isUpdateStatus]) job.artifacts]
    simp [Effect.isUpdateStatus]

theorem C5_completed_event_witness :
    onDownloadCompleted ⟨fun _ => true, fun _ => true, true⟩
        ⟨[⟨"/tmp/a.mp4"⟩, ⟨"/tmp/b.mp4"⟩], "d1", "m1", "+20 100"⟩ =
      ((([⟨"/tmp/a.mp4"⟩, ⟨"/tmp/b.mp4"⟩] : List Artifact).map (fun a =>
          [Effect.replyMedia "m1" a.path, Effect.removeFile a.path,
           Effect.trackEvent "download_response" "+20 100"])).flatten) ++
        [.updateStatus "d1" .SENT] ∧
    (onDownloadCompleted ⟨fun _ => true, fun _ => true, true⟩
        ⟨[⟨"/tmp/a.mp4"⟩, ⟨"/tmp/b.mp4"⟩], "d1", "m1", "+20 100"⟩).countP
        Effect.isReplyMedia = 2 ∧
    (onDownloadCompleted ⟨fun _ => true, fun _ => true, true⟩
        ⟨[⟨"/tmp/a.mp4"⟩, ⟨"/tmp/b.mp4"⟩], "d1", "m1", "+20 100"⟩).countP
        Effect.isRemoveFile = 2 ∧
    (onDownloadCompleted ⟨fun _ => true, fun _ => true, true⟩
        ⟨[⟨"/tmp/a.mp4"⟩, ⟨"/tmp/b.mp4"⟩], "d1", "m1", "+20 100"⟩).filter
        Effect.isUpdateStatus = [.updateStatus "d1" .SENT] :=
  C5_completed_event_delivery ⟨fun _ => true, fun _ => true, true⟩
    ⟨[⟨"/tmp/a.mp4"⟩, ⟨"/tmp/b.mp4"⟩], "d1", "m1", "+20 100"⟩
    (fun _ => rfl) (fun _ => rfl) rfl

/-! ## Claim C6: the reconciliation pass (`getUnreadChats`, lines 335-367) -/

/-- JS `Map.prototype.set` on an insertion-ordered association list: an
existing key keeps its position and gets the new value, a new key is
appended. -/
def mapSet (m : List (String × List Nat)) (k : String) (v : List Nat) :
    List (String × List Nat) :=
  if m.any (fun p => p.1 == k) then
    m.map (fun p => if p.1 == k then (k, v) else p)
  else m ++ [(k, v)]

/-- Lines 344-356: the `for` loop, accumulating
`HashMapOfNumbersAndUnreadMessages` and `count`. -/
def unreadLoop : List Chat → List (String × List Nat) → Nat →
    List (String × List Nat) × Nat
  | [], m, count => (m, count)
  | c :: rest, m, count =>
    if 0 < c.unreadCount then
      unreadLoop rest (mapSet m c.id (unreadMessagesOf c)) (count + c.unreadCount)
    else unreadLoop rest m count

/-- Lines 335-363: one completed reconciliation pass.  Returns the built
index, the value of `this.unreadChats` after the pass, and whether the
field was written (`count !== this.unreadChats`). -/
def getUnreadChatsPass (chats : List Chat) (prevUnread : Nat) :
    List (String × List Nat) × Nat × Bool :=
  let r := unreadLoop chats [] 0
  if r.2 ≠ prevUnread then (r.1, r.2, true) else (r.1, prevUnread, false)

theorem unreadLoop_spec (chats : List Chat) :
    ∀ (m : List (String × List Nat)) (count : Nat),
      (∀ c ∈ chats, m.any (fun p => p.1 == c.id) = false) →
      (chats.map Chat.id).Nodup →
      unreadLoop chats m count =
        (m ++ (chats.filter (fun c => 0 < c.unreadCount)).map
            (fun c => (c.id, unreadMessagesOf c)),
         count + (chats.map Chat.unreadCount).sum) := by
  induction chats with
  | nil => intro m count _ _; simp [unreadLoop]
  | cons c rest ih =>
    intro m count hm hnd
    simp only [List.map_cons, List.nodup_cons] at hnd
    by_cases hc : 0 < c.unreadCount
    · have hany : m.any (fun p => p.1 == c.id) = false := hm c (by simp)
      have hset : mapSet m c.id (unreadMessagesOf c) =
          m ++ [(c.id, unreadMessagesOf c)] := by
        simp [mapSet, hany]
      have hm2 : ∀ c2 ∈ rest,
          (m ++ [(c.id, unreadMessagesOf c)]).any (fun p => p.1 == c2.id) = false := by
        intro c2 hc2
        have h1 := hm c2 (List.mem_cons_of_mem _ hc2)
        have h2 : ¬ c.id = c2.id := fun he =>
          hnd.1 (he ▸ List.mem_map_of_mem Chat.id hc2)
        simp [List.any_append, h1, h2]
      rw [unreadLoop, if_pos hc, hset, ih _ _ hm2 hnd.2]
      refine Prod.ext ?_ ?_
      · simp [List.filter_cons, hc]
      · simp
        omega
    · have hc0 : c.unreadCount = 0 := by omega
      have hm2 : ∀ c2 ∈ rest, m.any (fun p => p.1 == c2.id) = false :=
        fun c2 hc2 => hm c2 (List.mem_cons_of_mem _ hc2)
      rw [unreadLoop, if_neg hc, ih _ _ hm2 hnd.2]
      refine Prod.ext ?_ ?_
      · simp [List.filter_cons, hc]
      · simp [hc0]

/-- C6: after a completed reconciliation pass over chats with pairwise
distinct identities, the built index has exactly one entry per chat with
nonzero unread count and no others; the process-wide counter field is
written exactly when the new total differs from its previous value, and
afterwards always equals the sum of the unread counts. -/
theorem C6_reconciliation_pass (chats : List Chat) (prev : Nat)
    (hnd : (chats.map Chat.id).Nodup) :
    (getUnreadChatsPass chats prev).1 =
      (chats.filter (fun c => 0 < c.unreadCount)).map
        (fun c => (c.id, unreadMessagesOf c)) ∧
    (getUnreadChatsPass chats prev).2.1 = (chats.map Chat.unreadCount).sum ∧
    ((getUnreadChatsPass chats prev).2.2 = true ↔
      (chats.map Chat.unreadCount).sum ≠ prev) := by
  have h := unreadLoop_spec chats [] 0 (by simp) hnd
  unfold getUnreadChatsPass
  rw [h]
  by_cases hp : (chats.map Chat.unreadCount).sum ≠ prev
  · simp [hp]
  · push_neg at hp
    simp [hp]

theorem C6_reconciliation_pass_witness :
    (getUnreadChatsPass
        [⟨"a", 0, [1]⟩, ⟨"b", 3, [1, 2, 3, 4]⟩, ⟨"c", 5, [1, 2, 3, 4, 5]⟩] 8).1 =
      (([⟨"a", 0, [1]⟩, ⟨"b", 3, [1, 2, 3, 4]⟩,
          ⟨"c", 5, [1, 2, 3, 4, 5]⟩] : List Chat).filter
          (fun c => 0 < c.unreadCount)).map
        (fun c => (c.id, unreadMessagesOf c)) ∧
    (getUnreadChatsPass
        [⟨"a", 0, [1]⟩, ⟨"b", 3, [1, 2, 3, 4]⟩, ⟨"c", 5, [1, 2, 3, 4, 5]⟩] 8).2.1 =
      (([⟨"a", 0, [1]⟩, ⟨"b", 3, [1, 2, 3, 4]⟩,
          ⟨"c", 5, [1, 2, 3, 4, 5]⟩] : List Chat).map Chat.unreadCount).sum ∧
    ((getUnreadChatsPass
        [⟨"a", 0, [1]⟩, ⟨"b", 3, [1, 2, 3, 4]⟩, ⟨"c", 5, [1, 2, 3, 4, 5]⟩] 8).2.2 =
        true ↔
      (([⟨"a", 0, [1]⟩, ⟨"b", 3, [1, 2, 3, 4]⟩,
          ⟨"c", 5, [1, 2, 3, 4, 5]⟩] : List Chat).map Chat.unreadCount).sum ≠ 8) :=
  C6_reconciliation_pass
    [⟨"a", 0, [1]⟩, ⟨"b", 3, [1, 2, 3, 4]⟩, ⟨"c", 5, [1, 2, 3, 4, 5]⟩] 8 (by decide)

/-! ## Claim C7: the `ready` transition (`WhatsApp.ts` lines 92-115)

The source registers the ready callback with `client.once("ready", ...)`: a
one-shot listener that the emitter removes before its first invocation.
`readyConsumed` records whether the listener has already been consumed, so
a second underlying `ready` signal finds no listener and has no effect. -/

structure LifecycleState where
  readyConsumed : Bool
  qrCodeMessageId : Option Nat
  isAuthenticated : Bool
  deriving DecidableEq, Repr

/-- Observable calls made during lifecycle transitions. -/
inductive SysEffect where
  | notify (text : String)
  | track (name : String)
  | deleteMessage (id : Nat)
  | removeQrFile
  | registerMessageHandler
  | registerQueueHandlers
  | registerBroadcastHandler
  | startUnreadLoop
  | registerCallHandler
  deriving DecidableEq, Repr

def SysEffect.isDeleteMessage : SysEffect → Bool
  | .deleteMessage _ => true
  | _ => false

/-- Lines 92-115: the body of the `once("ready")` callback.
`RegisterMessageCheck` (lines 369-378) contributes the queue handlers, the
broadcast handler and the reconciliation loop start. -/
def readyHandler (s : LifecycleState) : LifecycleState × List SysEffect :=
  let s1 := { s with isAuthenticated := true }
  let head : List SysEffect :=
    [.notify "WhatsApp client is ready!", .track "whatsapp_ready"]
  match s1.qrCodeMessageId with
  | some mid =>
    ({ s1 with qrCodeMessageId := none },
     head ++ [SysEffect.deleteMessage mid, .removeQrFile,
       .track "qrcode_authentication_completed",
       .registerMessageHandler, .registerQueueHandlers,
       .registerBroadcastHandler, .startUnreadLoop, .registerCallHandler])
  | none =>
    (s1,
     head ++ [SysEffect.registerMessageHandler, .registerQueueHandlers,
       .registerBroadcastHandler, .startUnreadLoop, .registerCallHandler])

/-- Delivery of an underlying `ready` signal to the `once`-registered
listener. -/
def signalReady (s : LifecycleState) : LifecycleState × List SysEffect :=
  if s.readyConsumed then (s, [])
  else readyHandler { s with readyConsumed := true }

/-- C7: delivering `ready` with a pending QR prompt retracts that prompt via
the Notification Port exactly once, and delivering `ready` a second time
produces no effects at all: no handler re-registration and no re-sent
notifications. -/
theorem C7_ready_once_and_qr_retraction (s : LifecycleState) (mid : Nat)
    (hnew : s.readyConsumed = false) (hqr : s.qrCodeMessageId = some mid) :
    (signalReady s).2.countP SysEffect.isDeleteMessage = 1 ∧
    (signalReady s).2.count (SysEffect.deleteMessage mid) = 1 ∧
    signalReady (signalReady s).1 = ((signalReady s).1, []) := by
  simp [signalReady, readyHandler, hnew, hqr, SysEffect.isDeleteMessage,
    List.countP_cons, List.count_cons]

theorem C7_ready_once_witness :
    (signalReady ⟨false, some 7, false⟩).2.countP SysEffect.isDeleteMessage = 1 ∧
    (signalReady ⟨false, some 7, false⟩).2.count (SysEffect.deleteMessage 7) = 1 ∧
    signalReady (signalReady ⟨false, some 7, false⟩).1 =
      ((signalReady ⟨false, some 7, false⟩).1, []) :=
  C7_ready_once_and_qr_retraction ⟨false, some 7, false⟩ 7 rfl rfl

end WhatsAppWizzard
